import Mathlib

/-!
Verification of the lememo-web frontend (`src/frontend/src/App.js`, which holds
two revisions of the application) and of the spec-modelled backend operations
it talks to.  JavaScript strings are modelled as Lean `String`s (working on
their underlying `List Char` where proofs need it), JavaScript numbers as
exact integers with the IEEE-754 binary64 rounding made explicit where the
source relies on it (`parseInt` on 17-19 digit strings), and the stateful
React code (`AuthProvider`, the auth form, the dashboard) as explicit state
transition functions.
-/

namespace LememoWeb

/-- Characters removed by JavaScript `String.prototype.trim`: the WhiteSpace
and LineTerminator productions of ECMA-262 (ASCII whitespace, NBSP, BOM, the
Unicode space separators, and the line/paragraph separators). -/
def isJsWhitespace (c : Char) : Bool :=
  c == ' ' || c == '\t' || c == '\n' || c == '\r' ||
  c == '\x0b' || c == '\x0c' || c == '\u00A0' || c == '\uFEFF' ||
  c == '\u1680' || (decide ('\u2000' ≤ c) && decide (c ≤ '\u200A')) ||
  c == '\u2028' || c == '\u2029' || c == '\u202F' || c == '\u205F' ||
  c == '\u3000'

/-- JavaScript `s.trim()` on the character list of `s`: drop leading and
trailing whitespace. -/
def jsTrimList (l : List Char) : List Char :=
  ((l.dropWhile isJsWhitespace).reverse.dropWhile isJsWhitespace).reverse

/-- JavaScript `s.trim()` as a `String` operation. -/
def jsTrim (s : String) : String :=
  ⟨jsTrimList s.data⟩

/-- Numeric value of a decimal digit character. -/
def digitVal (c : Char) : Nat :=
  c.toNat - 48

/-- Exact integer value of a decimal digit string (the mathematical integer
ECMA-262 `parseInt` computes before converting it to a Number). -/
def natOfDigits (l : List Char) : Nat :=
  l.foldl (fun a c => a * 10 + digitVal c) 0

/-- Floor base-2 logarithm on a structural fuel argument (enough fuel always
exists because the logarithm recursion halves its argument): written this way
so the kernel can evaluate it on concrete inputs, unlike the well-founded
`Nat.log2`, with which it agrees (`log2floor_eq_log2` below). -/
def log2Aux : Nat → Nat → Nat
  | 0, _ => 0
  | fuel + 1, n => if 2 ≤ n then log2Aux fuel (n / 2) + 1 else 0

/-- Floor base-2 logarithm, kernel-computable. -/
def log2floor (n : Nat) : Nat :=
  log2Aux n n

/-- Rounding of a nonnegative integer to the nearest IEEE-754 binary64 value,
ties to even, returned as the exact integer that double denotes.  Integers
below `2 ^ 53` are exactly representable; in the binade of a larger `n` the
unit in the last place is `2 ^ (log2floor n - 52)`.  This is the conversion
JavaScript applies to the exact integer value of a parsed digit string. -/
def roundDouble (n : Nat) : Nat :=
  if n < 2 ^ 53 then n
  else
    let u := 2 ^ (log2floor n - 52)
    let q := n / u
    let r := n % u
    if 2 * r < u then q * u
    else if u < 2 * r then (q + 1) * u
    else if q % 2 = 0 then q * u
    else (q + 1) * u

/-- JavaScript `parseInt` on a string of decimal digits (the only shape it is
applied to in `validateDiscordUserId`, whose regex guard is `^\d+$`): the
exact integer value rounded to the nearest representable double. -/
def jsParseIntDigits (l : List Char) : Nat :=
  roundDouble (natOfDigits l)

/-- App.js (new revision) lines 22-29, `validateDiscordUserId`:
requires a nonempty trimmed value, all digits, length 17-19, and
`parseInt(trimmedId) < 100000000000000000` rejects the id as invalid. -/
def validateDiscordUserId (id : String) : Option String :=
  let t := jsTrimList id.data
  if t.isEmpty = true then some "Discord User ID is required"
  else if t.all Char.isDigit = false then some "Discord User ID must contain only numbers"
  else if t.length < 17 ∨ 19 < t.length then some "Discord User ID must be 17-19 digits long"
  else if jsParseIntDigits t < 100000000000000000 then some "Invalid Discord User ID - please check your ID"
  else none

/-- App.js (new revision) lines 31-37, `validateUsername`. -/
def validateUsername (username : String) : Option String :=
  let t := jsTrimList username.data
  if t.isEmpty = true then some "Username is required"
  else if t.length < 2 then some "Username must be at least 2 characters long"
  else if 32 < t.length then some "Username must be no more than 32 characters long"
  else none

/-- App.js (new revision) lines 39-43, `validatePassword` (an empty JS string
is falsy, so `!password` is the emptiness test). -/
def validatePassword (password : String) : Option String :=
  if password = "" then some "Password is required"
  else if password.length < 6 then some "Password must be at least 6 characters long"
  else none

/-- The account record returned by `GET /auth/me` and held in the `user`
React state (the dashboard reads `user.username` and `user.discord_user_id`). -/
structure Account where
  username : String
  discord_user_id : String
  deriving Repr, DecidableEq

/-- The observable authentication state of `AuthProvider` (App.js lines
48-127): the `user` and `token` React states, the `token` key of
`localStorage`, the `Authorization` entry of `axios.defaults.headers.common`,
and the `loading` flag. -/
structure AuthState where
  user : Option Account
  token : Option String
  storedToken : Option String
  authHeader : Option String
  loading : Bool
  deriving Repr, DecidableEq

/-- App.js lines 115-120, `logout`: remove the stored token, delete the
axios `Authorization` default, and clear the `token` and `user` states. -/
def logout (s : AuthState) : AuthState :=
  { s with storedToken := none, authHeader := none, token := none, user := none }

/-- Success payload of `POST /auth/login` and `POST /auth/register`: the
frontend destructures `access_token` out of `response.data`. -/
structure TokenResponse where
  access_token : String
  deriving Repr, DecidableEq

/-- Outcome of the `GET /auth/me` call awaited inside `fetchUser`. -/
inductive FetchUserResult where
  | ok (a : Account)
  | err
  deriving Repr, DecidableEq

/-- App.js lines 62-72, `fetchUser`: on success store the account in `user`;
on any failure call `logout`; in both cases finish with `loading := false`. -/
def fetchUser (s : AuthState) (r : FetchUserResult) : AuthState :=
  match r with
  | .ok a => { s with user := some a, loading := false }
  | .err => { logout s with loading := false }

/-- The state `AuthProvider` mounts with (App.js lines 49-51): `user` null,
`token` initialised from `localStorage.getItem` of the token key, `loading`
true, and no axios `Authorization` default installed yet. -/
def initialAuthState (stored : Option String) : AuthState :=
  { user := none, token := stored, storedToken := stored,
    authHeader := none, loading := true }

/-- First half of the `useEffect` body (App.js lines 53-60): when a token is
present, install the bearer header before calling `fetchUser`; otherwise the
effect leaves the header alone. -/
def installAuthHeader (s : AuthState) : AuthState :=
  match s.token with
  | some t => { s with authHeader := some ("Bearer " ++ t) }
  | none => s

/-- The whole `useEffect` body (App.js lines 53-60), given the outcome of the
`fetchUser` call it triggers: with a token, install the header and run
`fetchUser`; without one, just clear `loading`. -/
def authEffect (s : AuthState) (r : FetchUserResult) : AuthState :=
  match s.token with
  | some _ => fetchUser (installAuthHeader s) r
  | none => { s with loading := false }

/-- What `AppRouter` renders. -/
inductive Screen where
  | loadingScreen
  | dashboard
  | auth
  deriving Repr, DecidableEq

/-- App.js lines 550-562, `AppRouter`: the loading placeholder while
`loading` is set, otherwise `user ? <Dashboard /> : <Auth />`. -/
def renderApp (s : AuthState) : Screen :=
  if s.loading then Screen.loadingScreen
  else match s.user with
    | some _ => Screen.dashboard
    | none => Screen.auth

/-- The `detail` field of a FastAPI error payload as the frontend sees it: a
plain string or an array of validation records (of which only the joined
`msg` strings would be displayed). -/
inductive HttpDetail where
  | str (s : String)
  | arr (msgs : List String)
  deriving Repr, DecidableEq

/-- JavaScript truthiness of `error.response?.data?.detail`: absent (or an
absent response) is `undefined`, an empty string is falsy, and an array is
always truthy (even when empty). -/
def detailTruthy : Option HttpDetail → Bool
  | some (.str s) => s ≠ ""
  | some (.arr _) => true
  | none => false

/-- Whether the detail value is a JavaScript array (`Array.isArray`). -/
def detailIsArray : Option HttpDetail → Bool
  | some (.arr _) => true
  | _ => false

/-- The `detail.map(e => e.msg).join(', ')` expression of the new revision. -/
def detailJoined : Option HttpDetail → String
  | some (.arr msgs) => String.intercalate ", " msgs
  | some (.str s) => s
  | none => ""

/-- JavaScript `a || b` on an optional detail value against a fallback. -/
def jsOrDetail (a : Option HttpDetail) (b : HttpDetail) : HttpDetail :=
  if detailTruthy a then
    match a with
    | some d => d
    | none => b
  else b

/-- New-revision error derivation (App.js lines 86-89 and 107-110):
`detail || (detail && Array.isArray(detail) ? detail.map(e => e.msg).join(', ') : fallback)`.
Whenever the ternary's array branch could fire, `detail` is truthy and the
outer `||` has already produced it, so that branch is dead code. -/
def errorMessageNew (fallbackMsg : String) (detail : Option HttpDetail) : HttpDetail :=
  jsOrDetail detail
    (if detailTruthy detail && detailIsArray detail
     then .str (detailJoined detail)
     else .str fallbackMsg)

/-- Old-revision error derivation (App.js lines 625 and 642):
`error.response?.data?.detail || fallback`. -/
def errorMessageOld (fallbackMsg : String) (detail : Option HttpDetail) : HttpDetail :=
  jsOrDetail detail (.str fallbackMsg)

/-- Failure of an axios call: the optional `detail` of the error payload
(`none` covers both a missing response and a payload without `detail`). -/
structure HttpFailure where
  detail : Option HttpDetail
  deriving Repr, DecidableEq

/-- Result of an awaited axios auth call. -/
inductive HttpResult where
  | ok (resp : TokenResponse)
  | err (f : HttpFailure)
  deriving Repr, DecidableEq

/-- An HTTP request as the frontend assembles it: method, path under the
`API` base, and JSON body as ordered key/value fields. -/
structure HttpRequest where
  method : String
  path : String
  body : List (String × String)
  deriving Repr, DecidableEq

/-- App.js lines 76-79 (new revision): the login POST. -/
def loginRequestNew (discordUserId password : String) : HttpRequest :=
  { method := "POST", path := "/auth/login",
    body := [("discord_user_id", discordUserId), ("password", password)] }

/-- App.js lines 96-100 (new revision): the register POST. -/
def registerRequestNew (discordUserId username password : String) : HttpRequest :=
  { method := "POST", path := "/auth/register",
    body := [("discord_user_id", discordUserId), ("username", username),
             ("password", password)] }

/-- App.js lines 615-618 (old revision): the login POST. -/
def loginRequestOld (discordUserId password : String) : HttpRequest :=
  { method := "POST", path := "/auth/login",
    body := [("discord_user_id", discordUserId), ("password", password)] }

/-- App.js lines 631-635 (old revision): the register POST. -/
def registerRequestOld (discordUserId username password : String) : HttpRequest :=
  { method := "POST", path := "/auth/register",
    body := [("discord_user_id", discordUserId), ("username", username),
             ("password", password)] }

/-- What an auth call hands back to `handleSubmit`, together with the auth
state it leaves behind. -/
structure AuthCallOutcome where
  state : AuthState
  success : Bool
  error : Option HttpDetail
  deriving Repr, DecidableEq

/-- App.js lines 74-92 (new revision), `login`, after the POST resolved: on
success write the token to `localStorage`, install the bearer header, set
the `token` state and return `success: true`; on failure return
`success: false` with the derived message, touching no auth state. -/
def loginNew (s : AuthState) (r : HttpResult) : AuthCallOutcome :=
  match r with
  | .ok resp =>
      { state := { s with storedToken := some resp.access_token,
                          authHeader := some ("Bearer " ++ resp.access_token),
                          token := some resp.access_token },
        success := true, error := none }
  | .err f =>
      { state := s, success := false,
        error := some (errorMessageNew "Login failed" f.detail) }

/-- App.js lines 94-113 (new revision), `register`, after the POST resolved. -/
def registerNew (s : AuthState) (r : HttpResult) : AuthCallOutcome :=
  match r with
  | .ok resp =>
      { state := { s with storedToken := some resp.access_token,
                          authHeader := some ("Bearer " ++ resp.access_token),
                          token := some resp.access_token },
        success := true, error := none }
  | .err f =>
      { state := s, success := false,
        error := some (errorMessageNew "Registration failed" f.detail) }

/-- App.js lines 613-627 (old revision), `login`, after the POST resolved. -/
def loginOld (s : AuthState) (r : HttpResult) : AuthCallOutcome :=
  match r with
  | .ok resp =>
      { state := { s with storedToken := some resp.access_token,
                          authHeader := some ("Bearer " ++ resp.access_token),
                          token := some resp.access_token },
        success := true, error := none }
  | .err f =>
      { state := s, success := false,
        error := some (errorMessageOld "Login failed" f.detail) }

/-- App.js lines 629-644 (old revision), `register`, after the POST resolved. -/
def registerOld (s : AuthState) (r : HttpResult) : AuthCallOutcome :=
  match r with
  | .ok resp =>
      { state := { s with storedToken := some resp.access_token,
                          authHeader := some ("Bearer " ++ resp.access_token),
                          token := some resp.access_token },
        success := true, error := none }
  | .err f =>
      { state := s, success := false,
        error := some (errorMessageOld "Registration failed" f.detail) }

/-- The form fields of the `Auth` component (new revision) at submit time. -/
structure AuthFormState where
  isLogin : Bool
  discordUserId : String
  username : String
  password : String
  deriving Repr, DecidableEq

/-- App.js lines 149-165 (new revision), `validateForm`: collect the field
errors (the username validator runs only in register mode) and succeed when
none was produced. -/
def validateForm (f : AuthFormState) : Bool :=
  (validateDiscordUserId f.discordUserId).isNone &&
  (f.isLogin || (validateUsername f.username).isNone) &&
  (validatePassword f.password).isNone

/-- The network operation `handleSubmit` can trigger. -/
inductive NetworkCall where
  | loginCall (discordUserId password : String)
  | registerCall (discordUserId username password : String)
  deriving Repr, DecidableEq

/-- App.js lines 167-189 (new revision), `handleSubmit`: return early with no
HTTP request unless `validateForm` passes, then call `login` with the trimmed
id, or `register` with the trimmed id and username. -/
def handleSubmit (f : AuthFormState) : Option NetworkCall :=
  if validateForm f then
    if f.isLogin then some (.loginCall (jsTrim f.discordUserId) f.password)
    else some (.registerCall (jsTrim f.discordUserId) (jsTrim f.username) f.password)
  else none

/-- App.js line 342 (new revision), inside `fetchNotes`:
`const params = search ? { search } : {}` — a JS string is truthy exactly
when it is nonempty, so the `search` query parameter of `GET /notes` is sent
(verbatim) iff the term is nonempty. -/
def fetchNotesParams (search : String) : List (String × String) :=
  if search ≠ "" then [("search", search)] else []

/-- Spec §6: request fields of the Register interface row. -/
def specRegisterFields : List String :=
  ["external_id", "display_name", "password"]

/-- Spec §6: request fields of the Login interface row. -/
def specLoginFields : List String :=
  ["external_id", "password"]

/-- The correspondence between the frontend JSON keys and the spec's field
names: `discord_user_id` is the spec's `external_id` and `username` its
`display_name` (spec §3: the external id is the caller-supplied numeric
string, the display name the mutable label). -/
def fieldRole : String → Option String
  | "discord_user_id" => some "external_id"
  | "username" => some "display_name"
  | "password" => some "password"
  | _ => none

/-- A note record as the backend stores it (spec §3): the fields the delete
operations consult. -/
structure Note where
  id : String
  owner_external_id : String
  content : String
  deriving Repr, DecidableEq

/-- The spec's error taxonomy (§7). -/
inductive ApiError where
  | conflict
  | unauthorized
  | forbidden
  | notFound
  | validation
  deriving Repr, DecidableEq

/-- Modelled from the spec: the backend implementation is not part of src/
(only its documentation and frontend callers are), so the authenticated
`delete_note` follows spec §4.2 — `NotFound` when no note has the id,
`Forbidden` when the note's `owner_external_id` differs from the caller's
external id, otherwise remove the note. -/
def delete_note (store : List Note) (callerExternalId noteId : String) :
    Except ApiError (List Note) :=
  match store.find? (fun n => n.id == noteId) with
  | none => .error .notFound
  | some n =>
      if n.owner_external_id == callerExternalId
      then .ok (store.filter (fun m => m.id != noteId))
      else .error .forbidden

/-- Modelled from the spec: the backend implementation is not part of src/,
so `bot_delete_note` follows spec §4.2 and src/DISCORD_BOT_INTEGRATION.md
(`DELETE /api/bot/notes/{note_id}`, listed under endpoints with no auth
required) — it deletes by id with no ownership check and no caller
identity at all. -/
def bot_delete_note (store : List Note) (noteId : String) :
    Except ApiError (List Note) :=
  .ok (store.filter (fun n => n.id != noteId))

/-! Helper lemmas: the structural logarithm agrees with `Nat.log2`, the
basic bounds on `roundDouble`, and the size bound on digit strings. -/

theorem log2Aux_eq_log2 (fuel n : Nat) (h : n ≤ fuel) : log2Aux fuel n = Nat.log2 n := by
  induction fuel generalizing n with
  | zero =>
      have hn : n = 0 := by omega
      subst hn
      simp [log2Aux, Nat.log2_zero]
  | succ fuel ih =>
      rw [Nat.log2]
      unfold log2Aux
      by_cases h2 : 2 ≤ n
      · rw [if_pos h2, if_pos h2, ih (n / 2) (by omega)]
      · rw [if_neg h2, if_neg h2]

theorem log2floor_eq_log2 (n : Nat) : log2floor n = Nat.log2 n :=
  log2Aux_eq_log2 n n le_rfl

theorem roundDouble_le_add_eight {n : Nat} (h : n < 2 ^ 57) : roundDouble n ≤ n + 8 := by
  simp only [roundDouble, log2floor_eq_log2]
  by_cases h53 : n < 2 ^ 53
  · rw [if_pos h53]
    omega
  · rw [if_neg h53]
    push_neg at h53
    have hn0 : n ≠ 0 := by positivity
    have hL1 : 53 ≤ Nat.log2 n := (Nat.le_log2 hn0).mpr h53
    have hL2 : Nat.log2 n ≤ 56 := by
      have := (Nat.log2_lt hn0).mpr h
      omega
    have hcases : Nat.log2 n = 53 ∨ Nat.log2 n = 54 ∨ Nat.log2 n = 55 ∨ Nat.log2 n = 56 := by
      omega
    rcases hcases with hL | hL | hL | hL <;> rw [hL] <;> norm_num <;> split_ifs <;> omega

theorem le_roundDouble_of_le {n : Nat} (hT : 10 ^ 17 ≤ n) (h64 : n < 2 ^ 64) :
    10 ^ 17 ≤ roundDouble n := by
  simp only [roundDouble, log2floor_eq_log2]
  by_cases h53 : n < 2 ^ 53
  · rw [if_pos h53]
    exact hT
  · rw [if_neg h53]
    have hn0 : n ≠ 0 := by omega
    have hL1 : 56 ≤ Nat.log2 n := (Nat.le_log2 hn0).mpr (by omega)
    have hL2 : Nat.log2 n ≤ 63 := by
      have := (Nat.log2_lt hn0).mpr h64
      omega
    have hcases : Nat.log2 n = 56 ∨ Nat.log2 n = 57 ∨ Nat.log2 n = 58 ∨
        Nat.log2 n = 59 ∨ Nat.log2 n = 60 ∨ Nat.log2 n = 61 ∨
        Nat.log2 n = 62 ∨ Nat.log2 n = 63 := by omega
    rcases hcases with hL | hL | hL | hL | hL | hL | hL | hL <;> rw [hL] <;> norm_num <;>
      split_ifs <;> omega

theorem roundDouble_boundary {n : Nat} (h1 : 10 ^ 17 - 8 ≤ n) (h2 : n < 10 ^ 17) :
    roundDouble n = 10 ^ 17 := by
  simp only [roundDouble, log2floor_eq_log2]
  have h53 : ¬ (n < 2 ^ 53) := by omega
  rw [if_neg h53]
  have hn0 : n ≠ 0 := by omega
  have hL : Nat.log2 n = 56 := by
    have ha : 56 ≤ Nat.log2 n := (Nat.le_log2 hn0).mpr (by omega)
    have hb : Nat.log2 n < 57 := (Nat.log2_lt hn0).mpr (by omega)
    omega
  rw [hL]
  norm_num
  split_ifs <;> omega

theorem le_roundDouble_iff {n : Nat} (h : n < 10 ^ 19) :
    10 ^ 17 ≤ roundDouble n ↔ 10 ^ 17 - 8 ≤ n := by
  constructor
  · intro hg
    by_contra hlt
    push_neg at hlt
    have := roundDouble_le_add_eight (n := n) (by omega)
    omega
  · intro hge
    rcases Nat.lt_or_ge n (10 ^ 17) with hc | hc
    · rw [roundDouble_boundary hge hc]
    · exact le_roundDouble_of_le hc (by omega)

theorem digitVal_le_nine {c : Char} (h : c.isDigit = true) : digitVal c ≤ 9 := by
  unfold Char.isDigit at h
  rw [Bool.and_eq_true, decide_eq_true_eq, decide_eq_true_eq] at h
  have h2 : c.toNat ≤ 57 := UInt32.le_def.mp h.2
  unfold digitVal
  omega

theorem foldl_digits_lt (l : List Char) (h : l.all Char.isDigit = true) :
    ∀ a : Nat, List.foldl (fun a c => a * 10 + digitVal c) a l < (a + 1) * 10 ^ l.length := by
  induction l with
  | nil =>
      intro a
      simp only [List.foldl_nil, List.length_nil, pow_zero, mul_one]
      omega
  | cons c l ih =>
      rw [List.all_cons, Bool.and_eq_true] at h
      intro a
      have hc : digitVal c ≤ 9 := digitVal_le_nine h.1
      have hrec := ih h.2 (a * 10 + digitVal c)
      calc List.foldl (fun a c => a * 10 + digitVal c) a (c :: l)
          = List.foldl (fun a c => a * 10 + digitVal c) (a * 10 + digitVal c) l := rfl
        _ < (a * 10 + digitVal c + 1) * 10 ^ l.length := hrec
        _ ≤ (a + 1) * 10 ^ (c :: l).length := by
            rw [List.length_cons, pow_succ]
            have hstep : a * 10 + digitVal c + 1 ≤ (a + 1) * 10 := by omega
            calc (a * 10 + digitVal c + 1) * 10 ^ l.length
                ≤ (a + 1) * 10 * 10 ^ l.length := Nat.mul_le_mul_right _ hstep
              _ = (a + 1) * (10 ^ l.length * 10) := by ring

theorem natOfDigits_lt (l : List Char) (h : l.all Char.isDigit = true) :
    natOfDigits l < 10 ^ l.length := by
  have := foldl_digits_lt l h 0
  simpa [natOfDigits] using this

/-! The claims. -/

/-- C1: the bot delete operation removes from the store every note carrying
the given id and nothing else, succeeding unconditionally: it consults no
caller identity and no `owner_external_id`, so it succeeds whatever account
owns the note and can never fail with `Forbidden` (or any other error). -/
theorem botDelete_no_ownership_check (store : List Note) (noteId : String) :
    ∃ remaining : List Note,
      bot_delete_note store noteId = Except.ok remaining ∧
      (∀ n : Note, n ∈ remaining ↔ n ∈ store ∧ n.id ≠ noteId) ∧
      ∀ e : ApiError, bot_delete_note store noteId ≠ Except.error e := by
  refine ⟨store.filter (fun n => n.id != noteId), rfl, ?_, ?_⟩
  · intro n
    simp [List.mem_filter, bne_iff_ne]
  · intro e h
    simp [bot_delete_note] at h

/-- Witness for C1 at a concrete store: without any caller credential,
deleting note n1 — owned by account 111111111111111111 — succeeds. -/
theorem botDelete_no_ownership_check_witness :
    ∃ remaining : List Note,
      bot_delete_note
        [{ id := "n1", owner_external_id := "111111111111111111", content := "buy milk" },
         { id := "n2", owner_external_id := "222222222222222222", content := "eggs" }] "n1"
        = Except.ok remaining ∧
      (∀ n : Note, n ∈ remaining ↔
        n ∈ [{ id := "n1", owner_external_id := "111111111111111111", content := "buy milk" },
             { id := "n2", owner_external_id := "222222222222222222", content := "eggs" }] ∧
        n.id ≠ "n1") ∧
      ∀ e : ApiError,
        bot_delete_note
          [{ id := "n1", owner_external_id := "111111111111111111", content := "buy milk" },
           { id := "n2", owner_external_id := "222222222222222222", content := "eggs" }] "n1"
          ≠ Except.error e :=
  botDelete_no_ownership_check
    [{ id := "n1", owner_external_id := "111111111111111111", content := "buy milk" },
     { id := "n2", owner_external_id := "222222222222222222", content := "eggs" }] "n1"

/-- C2: the dashboard is rendered exactly when loading has finished and a
resolved account is present in the `user` state; and whenever the
`GET /auth/me` fetch fails, `fetchUser` runs `logout` — clearing the stored
token, the bearer header and both React states — after which the router
shows the unauthenticated `Auth` screen. -/
theorem dashboard_only_with_resolved_account :
    (∀ s : AuthState, renderApp s = Screen.dashboard ↔
        s.loading = false ∧ ∃ a : Account, s.user = some a) ∧
    (∀ s : AuthState, fetchUser s FetchUserResult.err =
        { user := none, token := none, storedToken := none,
          authHeader := none, loading := false }) ∧
    (∀ s : AuthState, renderApp (fetchUser s FetchUserResult.err) = Screen.auth) := by
  refine ⟨?_, fun s => rfl, fun s => rfl⟩
  intro s
  obtain ⟨u, t, st, ah, l⟩ := s
  cases l <;> cases u <;> simp [renderApp]

/-- Witness for C2: a state that was showing the dashboard drops to the Auth
screen after a failed account fetch. -/
theorem dashboard_only_with_resolved_account_witness :
    renderApp (fetchUser
      { user := some { username := "user", discord_user_id := "111111111111111111" },
        token := some "tok", storedToken := some "tok",
        authHeader := some "Bearer tok", loading := false } FetchUserResult.err)
      = Screen.auth :=
  dashboard_only_with_resolved_account.2.2
    { user := some { username := "user", discord_user_id := "111111111111111111" },
      token := some "tok", storedToken := some "tok",
      authHeader := some "Bearer tok", loading := false }

/-- C3: login posts exactly the fields discord_user_id and password to
/auth/login, register posts exactly discord_user_id, username and password to
/auth/register, each value verbatim; under the field-role correspondence the
keys realise precisely the spec's external_id / password and external_id /
display_name / password interface rows; and on success the token each call
installs is the access_token field of the response. -/
theorem auth_request_interface :
    (∀ d p : String,
        loginRequestNew d p =
          { method := "POST", path := "/auth/login",
            body := [("discord_user_id", d), ("password", p)] } ∧
        (loginRequestNew d p).body.map (fun kv => fieldRole kv.1) =
          specLoginFields.map some) ∧
    (∀ d u p : String,
        registerRequestNew d u p =
          { method := "POST", path := "/auth/register",
            body := [("discord_user_id", d), ("username", u), ("password", p)] } ∧
        (registerRequestNew d u p).body.map (fun kv => fieldRole kv.1) =
          specRegisterFields.map some) ∧
    (∀ (s : AuthState) (resp : TokenResponse),
        (loginNew s (HttpResult.ok resp)).state.token = some resp.access_token ∧
        (registerNew s (HttpResult.ok resp)).state.token = some resp.access_token) :=
  ⟨fun _ _ => ⟨rfl, rfl⟩, fun _ _ _ => ⟨rfl, rfl⟩, fun _ _ => ⟨rfl, rfl⟩⟩

/-- Witness for C3 at concrete credentials. -/
theorem auth_request_interface_witness :
    loginRequestNew "111111111111111111" "secret1" =
      { method := "POST", path := "/auth/login",
        body := [("discord_user_id", "111111111111111111"), ("password", "secret1")] } ∧
    (loginRequestNew "111111111111111111" "secret1").body.map (fun kv => fieldRole kv.1) =
      specLoginFields.map some :=
  auth_request_interface.1 "111111111111111111" "secret1"

/-- C4: when the login POST fails, the new revision's login returns
success false together with the derived error message, and the
authentication state is untouched — in particular there is no localStorage
write, no Authorization header install and no token state update. -/
theorem login_failure_is_atomic (s : AuthState) (f : HttpFailure) :
    (loginNew s (HttpResult.err f)).success = false ∧
    (loginNew s (HttpResult.err f)).error =
      some (errorMessageNew "Login failed" f.detail) ∧
    (loginNew s (HttpResult.err f)).state = s :=
  ⟨rfl, rfl, rfl⟩

/-- Witness for C4: a failed login from the logged-out initial state leaves
it exactly as it was, with the fallback message. -/
theorem login_failure_is_atomic_witness :
    (loginNew (initialAuthState none) (HttpResult.err { detail := none })).success = false ∧
    (loginNew (initialAuthState none) (HttpResult.err { detail := none })).error =
      some (errorMessageNew "Login failed" none) ∧
    (loginNew (initialAuthState none) (HttpResult.err { detail := none })).state =
      initialAuthState none :=
  login_failure_is_atomic (initialAuthState none) { detail := none }

/-- C5: every successful login or register persists the returned token to
localStorage, sets the token state, and installs the process-wide
Authorization default as the string Bearer followed by a space and the
token; and the startup effect installs a header of the same shape for a
token recovered from localStorage. -/
theorem token_persisted_with_bearer_header :
    (∀ (s : AuthState) (resp : TokenResponse),
        (loginNew s (HttpResult.ok resp)).state.storedToken = some resp.access_token ∧
        (loginNew s (HttpResult.ok resp)).state.authHeader =
          some ("Bearer " ++ resp.access_token) ∧
        (loginNew s (HttpResult.ok resp)).state.token = some resp.access_token) ∧
    (∀ (s : AuthState) (resp : TokenResponse),
        (registerNew s (HttpResult.ok resp)).state.storedToken = some resp.access_token ∧
        (registerNew s (HttpResult.ok resp)).state.authHeader =
          some ("Bearer " ++ resp.access_token) ∧
        (registerNew s (HttpResult.ok resp)).state.token = some resp.access_token) ∧
    (∀ t : String,
        (installAuthHeader (initialAuthState (some t))).authHeader =
          some ("Bearer " ++ t)) :=
  ⟨fun _ _ => ⟨rfl, rfl, rfl⟩, fun _ _ => ⟨rfl, rfl, rfl⟩, fun _ => rfl⟩

/-- Witness for C5: a concrete startup with a recovered token installs the
literal bearer header. -/
theorem token_persisted_with_bearer_header_witness :
    (installAuthHeader (initialAuthState (some "tok123"))).authHeader =
      some "Bearer tok123" :=
  (token_persisted_with_bearer_header.2.2 "tok123").trans (by decide)

/-- C6: validateUsername accepts exactly the inputs whose trimmed value is
nonempty with length between 2 and 32 inclusive; every other input yields an
error message. -/
theorem validateUsername_accepts_iff (u : String) :
    validateUsername u = none ↔
      jsTrimList u.data ≠ [] ∧
      2 ≤ (jsTrimList u.data).length ∧ (jsTrimList u.data).length ≤ 32 := by
  simp only [validateUsername]
  split_ifs with h1 h2 h3 <;> simp_all [List.isEmpty_iff]

/-- Witness for C6: a two-character name is accepted. -/
theorem validateUsername_accepts_iff_witness : validateUsername "ab" = none :=
  (validateUsername_accepts_iff "ab").mpr (by decide)

/-- C7: handleSubmit triggers an HTTP call exactly when every applicable
client-side validator passes — the discord-id and password validators
always apply, the username validator only in register mode; on any
validator error no network operation is invoked. -/
theorem handleSubmit_gated_by_validation (f : AuthFormState) :
    (∃ c : NetworkCall, handleSubmit f = some c) ↔
      validateDiscordUserId f.discordUserId = none ∧
      (f.isLogin = true ∨ validateUsername f.username = none) ∧
      validatePassword f.password = none := by
  have hform : validateForm f = true ↔
      validateDiscordUserId f.discordUserId = none ∧
      (f.isLogin = true ∨ validateUsername f.username = none) ∧
      validatePassword f.password = none := by
    simp [validateForm, Bool.and_eq_true, Bool.or_eq_true, Option.isNone_iff_eq_none,
      and_assoc]
  rw [← hform]
  unfold handleSubmit
  by_cases hv : validateForm f = true
  · rw [if_pos hv]
    simp only [hv, iff_true]
    cases hl : f.isLogin
    · rw [if_neg (by simp [hl])]
      exact ⟨_, rfl⟩
    · rw [if_pos (by simp [hl])]
      exact ⟨_, rfl⟩
  · rw [if_neg hv]
    simp [hv]

/-- Witness for C7: a fully valid login form does reach the network. -/
theorem handleSubmit_gated_by_validation_witness :
    ∃ c : NetworkCall,
      handleSubmit { isLogin := true, discordUserId := "123456789012345678",
                     username := "", password := "secret1" } = some c :=
  (handleSubmit_gated_by_validation
    { isLogin := true, discordUserId := "123456789012345678",
      username := "", password := "secret1" }).mpr (by decide)

/-- C8: the search query parameter of GET /notes carries the term verbatim
exactly when the term is nonempty; an empty term yields the parameterless
request, identical to the one fetchNotes issues with no search at all. -/
theorem fetchNotes_search_param_iff (s : String) :
    (s ≠ "" → fetchNotesParams s = [("search", s)]) ∧
    (s = "" → fetchNotesParams s = fetchNotesParams "") ∧
    fetchNotesParams "" = [] := by
  refine ⟨fun h => ?_, fun h => by rw [h], rfl⟩
  simp [fetchNotesParams, h]

/-- Witness for C8: a concrete nonempty term is sent verbatim, the empty
term sends nothing. -/
theorem fetchNotes_search_param_iff_witness :
    fetchNotesParams "milk" = [("search", "milk")] ∧ fetchNotesParams "" = [] :=
  ⟨(fetchNotes_search_param_iff "milk").1 (by decide),
   (fetchNotes_search_param_iff "").2.2⟩

/-- C9 is false as stated: the 17-digit id 99999999999999999 has exact
integer value 10 ^ 17 - 1, below the threshold the claim requires for
acceptance, yet validateDiscordUserId accepts it — parseInt yields the
value rounded to the nearest IEEE-754 double, which here is exactly
10 ^ 17, so the final numeric check passes. -/
theorem validateDiscordUserId_seventeen_digit_accepted :
    validateDiscordUserId "99999999999999999" = none ∧
    (jsTrimList "99999999999999999".data).length = 17 ∧
    (jsTrimList "99999999999999999".data).all Char.isDigit = true ∧
    natOfDigits (jsTrimList "99999999999999999".data) < 100000000000000000 :=
  ⟨by decide, by decide, by decide, by decide⟩

/-- C9 amended: validateDiscordUserId accepts exactly the inputs whose
trimmed value is all digits, 17-19 characters long, and whose exact integer
value is at least 10 ^ 17 - 8 — equivalently, whose value rounded to the
nearest IEEE-754 double (which is what parseInt returns) is at least
10 ^ 17.  The numeric check therefore rejects every 17-digit id except the
eight largest, 99999999999999992 through 99999999999999999, which parseInt
rounds up to the double 10 ^ 17. -/
theorem validateDiscordUserId_accepts_iff (id : String) :
    validateDiscordUserId id = none ↔
      jsTrimList id.data ≠ [] ∧
      (jsTrimList id.data).all Char.isDigit = true ∧
      17 ≤ (jsTrimList id.data).length ∧ (jsTrimList id.data).length ≤ 19 ∧
      10 ^ 17 - 8 ≤ natOfDigits (jsTrimList id.data) := by
  simp only [validateDiscordUserId]
  split_ifs with h1 h2 h3 h4
  · simp_all [List.isEmpty_iff]
  · simp_all [List.isEmpty_iff]
  · constructor
    · intro hx
      exact absurd hx (by simp)
    · rintro ⟨-, -, hlen1, hlen2, -⟩
      omega
  · constructor
    · intro hx
      exact absurd hx (by simp)
    · rintro ⟨hne, hdig, hlen1, hlen2, hval⟩
      exfalso
      push_neg at h3
      have hbound : natOfDigits (jsTrimList id.data) < 10 ^ 19 := by
        have b1 := natOfDigits_lt _ hdig
        have b2 : (10 : Nat) ^ (jsTrimList id.data).length ≤ 10 ^ 19 :=
          Nat.pow_le_pow_right (by norm_num) hlen2
        omega
      have := (le_roundDouble_iff hbound).mpr hval
      unfold jsParseIntDigits at h4
      omega
  · constructor
    · intro _
      push_neg at h3
      refine ⟨?_, ?_, by omega, by omega, ?_⟩
      · intro hx
        rw [hx] at h1
        simp at h1
      · simpa using h2
      · have hdig : (jsTrimList id.data).all Char.isDigit = true := by simpa using h2
        have hbound : natOfDigits (jsTrimList id.data) < 10 ^ 19 := by
          have b1 := natOfDigits_lt _ hdig
          have b2 : (10 : Nat) ^ (jsTrimList id.data).length ≤ 10 ^ 19 :=
            Nat.pow_le_pow_right (by norm_num) (by omega)
          omega
        unfold jsParseIntDigits at h4
        push_neg at h4
        exact (le_roundDouble_iff hbound).mp h4
    · intro _
      rfl

/-- Witness for C9's amended statement: a valid 18-digit id is accepted. -/
theorem validateDiscordUserId_accepts_iff_witness :
    validateDiscordUserId "123456789012345678" = none :=
  (validateDiscordUserId_accepts_iff "123456789012345678").mpr (by decide)

/-- C10: the two revisions' login functions are observationally equivalent
on the successful path — for every input they assemble the identical POST
/auth/login request, and for every successful response they produce the
identical outcome: same localStorage write, same Authorization header
install, same token state and same success flag. -/
theorem login_revisions_agree_on_success :
    (∀ d p : String, loginRequestOld d p = loginRequestNew d p) ∧
    (∀ (s : AuthState) (resp : TokenResponse),
        loginOld s (HttpResult.ok resp) = loginNew s (HttpResult.ok resp)) :=
  ⟨fun _ _ => rfl, fun _ _ => rfl⟩

/-- Witness for C10 at a concrete state and response. -/
theorem login_revisions_agree_on_success_witness :
    loginOld (initialAuthState none) (HttpResult.ok { access_token := "tok123" }) =
      loginNew (initialAuthState none) (HttpResult.ok { access_token := "tok123" }) :=
  login_revisions_agree_on_success.2 (initialAuthState none) { access_token := "tok123" }

end LememoWeb
